import Mathlib

/-!
# Attachment intake pipeline — shallow embedding

A shallow embedding of `src/frontend/src/scripts/attachments.ts` (the
`AttachmentManager` object of the kea-research frontend): the data model,
the `addAttachment` validation/transform pipeline, the link operations,
removal, clearing, and the two link modals; together with theorems about
the claims of the specification.

External collaborators are modelled as parameters:
* the content sniffer (`file-type`'s `fileTypeFromBlob`) is a function
  from raw bytes to an optional detected format;
* the image compressor (`ImageCompressor.compressAttachment`) is a
  function from a file and options to either a blob or a thrown error
  (`Except`);
* the configuration snapshot (compression toggle and options) is a
  `Config` record.

JavaScript `File`/`Blob` objects are records of a name, a declared MIME
type, and byte content (a list of byte values); `size` is the content
length.  JavaScript truthiness of strings is modelled as `≠ ""`, and
`Array.prototype.splice` index normalisation (negative indices count from
the end, clamped to 0) is transcribed in `spliceIndex`.
-/

set_option linter.unusedVariables false
set_option linter.unnecessarySeqFocus false

namespace Attachments

/-- A binary blob as produced by the compressor: MIME type plus bytes. -/
structure Blob where
  type : String
  content : List Nat
  deriving Repr, DecidableEq

/-- `Blob.size` mirrors the JS `blob.size` accessor. -/
def Blob.size (b : Blob) : Nat := b.content.length

/-- A candidate file: name, declared MIME type (`file.type`, possibly the
empty string), and raw byte content. -/
structure File where
  name : String
  type : String
  content : List Nat
  deriving Repr, DecidableEq

/-- `File.size` mirrors the JS `file.size` accessor. -/
def File.size (f : File) : Nat := f.content.length

/-- The closed `type` tag of the `Attachment` interface. -/
inductive AttachmentType
  | image | file | youtube | wikipedia
  deriving Repr, DecidableEq

/-- The `Attachment` interface: all fields other than `type` are optional
(`?:` in TypeScript), and a record sets only those the code assigns. -/
structure Attachment where
  type : AttachmentType
  file : Option File := none
  url : Option String := none
  name : Option String := none
  textContent : Option String := none
  extension : Option String := none
  sizeBytes : Option Nat := none
  deriving Repr, DecidableEq

/-- `MAX_FILE_SIZE_BYTES = 10 * 1024 * 1024`: 10MB per file. -/
def MAX_FILE_SIZE_BYTES : Nat := 10 * 1024 * 1024

/-- `MAX_TOTAL_FILE_SIZE_BYTES = 10 * 1024 * 1024`: 10MB total. -/
def MAX_TOTAL_FILE_SIZE_BYTES : Nat := 10 * 1024 * 1024

/-- The fixed allow-list `SUPPORTED_TEXT_EXTENSIONS`. -/
def SUPPORTED_TEXT_EXTENSIONS : List String :=
  [ "js", "jsx", "ts", "tsx", "py", "java", "rb", "php", "cs", "go", "rs",
    "c", "cpp", "h", "hpp",
    "sh", "bash",
    "html", "css", "scss", "sass", "vue", "svelte",
    "json", "yaml", "yml", "toml", "ini", "env",
    "csv", "xml", "sql",
    "md", "mdx", "txt", "log" ]

/-- JS `filename.split(c)` for a one-character separator, on the
character list. -/
def splitOnChar (c : Char) : List Char → List (List Char)
  | [] => [[]]
  | x :: xs =>
    let r := splitOnChar c xs
    if x = c then [] :: r
    else
      match r with
      | y :: ys => (x :: y) :: ys
      | [] => [[x]]

/-- JS `s.startsWith(pre)` (also `s.indexOf(pre) === 0`). -/
def startsWith (s pre : String) : Bool :=
  decide (pre.toList <+: s.toList)

/-- `getFileExtension`: text after the last `.`, lowercased; `""` when the
name has no `.` (JS `split('.')` / `pop()` / `toLowerCase()`). -/
def getFileExtension (filename : String) : String :=
  let parts := splitOnChar '.' filename.toList
  if parts.length > 1 then
    String.mk ((parts.getLastD []).map Char.toLower)
  else ""

/-- `isSupportedTextFile`: membership in the extension allow-list. -/
def isSupportedTextFile (extension : String) : Bool :=
  SUPPORTED_TEXT_EXTENSIONS.contains extension

/-- The `SAFE_TEXT_MIME_TYPES` allow-list of `isTextMimeType`. -/
def SAFE_TEXT_MIME_TYPES : List String :=
  [ "text/plain", "text/html", "text/css", "text/javascript", "text/csv",
    "text/xml", "text/markdown", "application/json", "application/xml",
    "application/x-yaml", "text/x-yaml", "application/javascript",
    "application/x-sh" ]

/-- `isTextMimeType`: starts with `text/`, or in the safe list. -/
def isTextMimeType (mimeType : String) : Bool :=
  if startsWith mimeType "text/" then true
  else SAFE_TEXT_MIME_TYPES.contains mimeType

/-- The image MIME allow-list `SUPPORTED_TYPES` of the image branch. -/
def SUPPORTED_TYPES : List String :=
  ["image/jpeg", "image/png", "image/webp", "image/gif"]

/-- `MAX_SIZE_BYTES` of the image branch: max 10MB before compression. -/
def MAX_SIZE_BYTES : Nat := 10 * 1024 * 1024

/-- `MAX_IMAGES = 8`: limit of 8 images per message. -/
def MAX_IMAGES : Nat := 8

/-- The result of the `file-type` sniffer when it detects a format. -/
structure FileTypeResult where
  ext : String
  mime : String
  deriving Repr, DecidableEq

/-- The compression options record `{quality, maxWidthOrHeight}`. -/
structure CompressionOptions where
  quality : Nat
  maxWidthOrHeight : Nat
  deriving Repr, DecidableEq

/-- The manager's configuration snapshot: the `compressImages` toggle and
the current `compressionOptions`. -/
structure Config where
  compressImages : Bool
  compressionOptions : CompressionOptions
  deriving Repr, DecidableEq

/-- The outcome signalled by `addAttachment`: each `rejected` constructor
is one of the `alert(...)` early returns, in source order. -/
inductive Reason
  | unsupportedFileType
  | binaryContentDetected
  | binaryMimeType
  | fileTooLarge
  | totalSizeExceeded
  | unsupportedImageFormat
  | imageTooLarge
  | maxImagesReached
  deriving Repr, DecidableEq

/-- `committed` = the candidate was pushed onto `this.attachments`. -/
inductive AddResult
  | committed
  | rejected (reason : Reason)
  deriving Repr, DecidableEq

/-- The TypeScript union `'image' | 'file'` of `addAttachment`'s `type`
parameter. -/
inductive FileKind
  | image | file
  deriving Repr, DecidableEq

/-- The `Attachment.type` tag pushed for each `FileKind`. -/
def FileKind.toType : FileKind → AttachmentType
  | .image => .image
  | .file => .file

/-- The aggregate `currentTotalSize` computation of `addAttachment`:
`this.attachments.filter(a => a.type === 'file').reduce((sum, a) =>
sum + (a.file?.size || 0), 0)`. -/
def totalFileSize (attachments : List Attachment) : Nat :=
  ((attachments.filter (fun a => a.type == AttachmentType.file)).map
    (fun a => match a.file with
      | some f => f.size
      | none => 0)).sum

/-- The `currentImageCount` computation of `addAttachment`:
`this.attachments.filter(att => att.type === 'image').length`. -/
def imageCount (attachments : List Attachment) : Nat :=
  (attachments.filter (fun att => att.type == AttachmentType.image)).length

/-- `addAttachment(type, file)`, transcribed gate by gate.  The store is
passed and returned explicitly; the result records commit vs. the alert
raised.  `sniff` is `fileTypeFromBlob`, `compress` is
`ImageCompressor.compressAttachment` (throwing modelled by `Except`). -/
def addAttachment (cfg : Config) (sniff : List Nat → Option FileTypeResult)
    (compress : File → CompressionOptions → Except String Blob)
    (type : FileKind) (file : File) (attachments : List Attachment) :
    AddResult × List Attachment :=
  match type with
  | .file =>
    let extension := getFileExtension file.name
    -- Validate extension
    if !(isSupportedTextFile extension) then
      (.rejected .unsupportedFileType, attachments)
    else
      -- Content-based file type detection using file-type library
      match sniff file.content with
      | some _detectedType =>
        -- If file-type detected a specific binary format, reject it
        (.rejected .binaryContentDetected, attachments)
      | none =>
        -- Additional MIME type check for files with detected MIME types
        if file.type != "" && !(isTextMimeType file.type) then
          (.rejected .binaryMimeType, attachments)
        -- Validate file size
        else if file.size > MAX_FILE_SIZE_BYTES then
          (.rejected .fileTooLarge, attachments)
        else
          -- Check total file size across all files
          let currentTotalSize := totalFileSize attachments
          if currentTotalSize + file.size > MAX_TOTAL_FILE_SIZE_BYTES then
            (.rejected .totalSizeExceeded, attachments)
          else
            -- Store File object (text will be extracted at send time)
            (.committed,
              attachments ++
                [{ type := .file, file := some file, name := some file.name }])
  | .image =>
    -- Validate image type
    if !(SUPPORTED_TYPES.contains file.type) then
      (.rejected .unsupportedImageFormat, attachments)
    -- Check file size (max 10MB before compression)
    else if file.size > MAX_SIZE_BYTES then
      (.rejected .imageTooLarge, attachments)
    -- Limit: 8 images per message
    else if imageCount attachments ≥ MAX_IMAGES then
      (.rejected .maxImagesReached, attachments)
    else
      -- Compress image if enabled; only use compressed if actually smaller,
      -- on failure continue with original file
      let processedFile :=
        if cfg.compressImages && startsWith file.type "image/" then
          match compress file cfg.compressionOptions with
          | .ok compressedBlob =>
            if compressedBlob.size < file.size then
              { name := file.name, type := compressedBlob.type,
                content := compressedBlob.content }
            else
              file
          | .error _ => file
        else
          file
      -- Add to attachments array
      (.committed,
        attachments ++
          [{ type := .image, file := some processedFile,
             name := some file.name }])

/-- `addYoutubeLink(url)`: unconditional push of `{type:'youtube', url}`. -/
def addYoutubeLink (url : String) (attachments : List Attachment) :
    List Attachment :=
  attachments ++ [{ type := .youtube, url := some url }]

/-- `addWikipediaLink(url)`: unconditional push of `{type:'wikipedia', url}`. -/
def addWikipediaLink (url : String) (attachments : List Attachment) :
    List Attachment :=
  attachments ++ [{ type := .wikipedia, url := some url }]

/-- JS `Array.prototype.splice` start-index normalisation: a negative
start counts from the end and is clamped to 0; a nonnegative start is
clamped to the length. -/
def spliceIndex (start : Int) (len : Nat) : Nat :=
  if start < 0 then (max ((len : Int) + start) 0).toNat
  else min start.toNat len

/-- `removeAttachment(index)`: `this.attachments.splice(index, 1)`. -/
def removeAttachment (index : Int) (attachments : List Attachment) :
    List Attachment :=
  let i := spliceIndex index attachments.length
  attachments.take i ++ attachments.drop (i + 1)

/-- `clearAttachments()`: `this.attachments = []`. -/
def clearAttachments (attachments : List Attachment) : List Attachment := []

/-- What a link-modal invocation did: committed a link, alerted an
invalid URL, or did nothing (prompt cancelled / empty input). -/
inductive LinkResult
  | committed
  | rejectedInvalid
  | ignored
  deriving Repr, DecidableEq

/-- JS `String.prototype.includes`: substring containment. -/
def includes (s sub : String) : Bool :=
  decide (sub.toList <:+: s.toList)

/-- `showYoutubeModal()`: `prompt` yields `input` (`none` = cancelled);
`if (url && (url.includes('youtube.com') || url.includes('youtu.be')))`
commit, `else if (url)` alert invalid. -/
def showYoutubeModal (input : Option String)
    (attachments : List Attachment) : LinkResult × List Attachment :=
  match input with
  | none => (.ignored, attachments)
  | some url =>
    if url != "" && (includes url "youtube.com" || includes url "youtu.be") then
      (.committed, addYoutubeLink url attachments)
    else if url != "" then
      (.rejectedInvalid, attachments)
    else
      (.ignored, attachments)

/-- `showWikipediaModal()`: as `showYoutubeModal`, fragment
`wikipedia.org`. -/
def showWikipediaModal (input : Option String)
    (attachments : List Attachment) : LinkResult × List Attachment :=
  match input with
  | none => (.ignored, attachments)
  | some url =>
    if url != "" && includes url "wikipedia.org" then
      (.committed, addWikipediaLink url attachments)
    else if url != "" then
      (.rejectedInvalid, attachments)
    else
      (.ignored, attachments)

/-- The store-mutating operations the manager exposes, for stating
invariants preserved by every operation. -/
inductive Op
  | add (type : FileKind) (file : File)
  | addYoutube (url : String)
  | addWikipedia (url : String)
  | youtubeModal (input : Option String)
  | wikipediaModal (input : Option String)
  | remove (index : Int)
  | clear

/-- The store after one operation. -/
def applyOp (cfg : Config) (sniff : List Nat → Option FileTypeResult)
    (compress : File → CompressionOptions → Except String Blob) :
    Op → List Attachment → List Attachment
  | .add type file, attachments =>
    (addAttachment cfg sniff compress type file attachments).2
  | .addYoutube url, attachments => addYoutubeLink url attachments
  | .addWikipedia url, attachments => addWikipediaLink url attachments
  | .youtubeModal input, attachments =>
    (showYoutubeModal input attachments).2
  | .wikipediaModal input, attachments =>
    (showWikipediaModal input attachments).2
  | .remove index, attachments => removeAttachment index attachments
  | .clear, attachments => clearAttachments attachments

/-- A continuation byte `10xxxxxx` of a UTF-8 sequence. -/
def isCont (b : Nat) : Bool :=
  decide (0x80 ≤ b) && decide (b ≤ 0xBF)

/-- Validity of a byte list as (strict, shortest-form) UTF-8 text, for
stating the spec's "decodable as UTF-8" guarantee. -/
def isValidUTF8 : List Nat → Bool
  | [] => true
  | b0 :: rest =>
    if b0 ≤ 0x7F then isValidUTF8 rest
    else if 0xC2 ≤ b0 ∧ b0 ≤ 0xDF then
      match rest with
      | b1 :: r => isCont b1 && isValidUTF8 r
      | [] => false
    else if 0xE0 ≤ b0 ∧ b0 ≤ 0xEF then
      match rest with
      | b1 :: b2 :: r =>
        (if b0 == 0xE0 then decide (0xA0 ≤ b1) && decide (b1 ≤ 0xBF)
         else if b0 == 0xED then decide (0x80 ≤ b1) && decide (b1 ≤ 0x9F)
         else isCont b1) && isCont b2 && isValidUTF8 r
      | _ => false
    else if 0xF0 ≤ b0 ∧ b0 ≤ 0xF4 then
      match rest with
      | b1 :: b2 :: b3 :: r =>
        (if b0 == 0xF0 then decide (0x90 ≤ b1) && decide (b1 ≤ 0xBF)
         else if b0 == 0xF4 then decide (0x80 ≤ b1) && decide (b1 ≤ 0x8F)
         else isCont b1) && isCont b2 && isCont b3 && isValidUTF8 r
      | _ => false
    else false

/-! ## Concrete instances used as test inputs -/

/-- The manager's initial configuration: `compressImages = true`,
`compressionOptions = { quality: 85, maxWidthOrHeight: 2048 }`. -/
def cfg0 : Config :=
  { compressImages := true,
    compressionOptions := { quality := 85, maxWidthOrHeight := 2048 } }

/-- A sniffer run that detects nothing (plain text / unknown bytes). -/
def sniffNone : List Nat → Option FileTypeResult := fun _ => none

/-- A compressor that always throws. -/
def compress0 : File → CompressionOptions → Except String Blob :=
  fun _ _ => .error "compression failed"

/-- A committed youtube link record. -/
def sampleYoutube : Attachment :=
  { type := .youtube, url := some "https://youtu.be/abc123" }

/-- A committed wikipedia link record. -/
def sampleWikipedia : Attachment :=
  { type := .wikipedia, url := some "https://en.wikipedia.org/wiki/Kea" }

/-- A store already holding eight image attachments. -/
def eightImages : List Attachment :=
  List.replicate 8 { type := .image }

/-- A ninth image candidate (a 1-byte PNG-typed file). -/
def png9 : File := { name := "ninth.png", type := "image/png", content := [0] }

/-- A `.txt`-named candidate whose single byte `0xFF` is not UTF-8. -/
def binFile : File := { name := "notes.txt", type := "", content := [0xFF] }

/-- A small Python file candidate (bytes of `print`). -/
def pyFile : File :=
  { name := "script.py", type := "text/plain",
    content := [112, 114, 105, 110, 116] }

/-- A small Markdown file candidate (bytes of `# Hi`). -/
def mdFile : File :=
  { name := "README.md", type := "text/markdown",
    content := [35, 32, 72, 105] }

/-- A small log file candidate (bytes of `ok`). -/
def logFile : File :=
  { name := "build.log", type := "text/plain", content := [111, 107] }

/-- A sniffer that recognises the four PNG magic bytes. -/
def pngSniff : List Nat → Option FileTypeResult :=
  fun content =>
    if content = [0x89, 0x50, 0x4E, 0x47] then
      some { ext := "png", mime := "image/png" }
    else none

/-- A `.txt`-named candidate holding PNG magic bytes. -/
def pngNamedTxt : File :=
  { name := "image.txt", type := "", content := [0x89, 0x50, 0x4E, 0x47] }

/-- A 3 MiB text file candidate with the given name. -/
def file3MiB (n : String) : File :=
  { name := n, type := "text/plain",
    content := List.replicate (3 * 1024 * 1024) 97 }

/-- The record committed for `file3MiB n`. -/
def recFile (n : String) : Attachment :=
  { type := .file, file := some (file3MiB n), name := some n }

/-- An image candidate of 10 MiB + 1 bytes. -/
def bigPng : File :=
  { name := "big.png", type := "image/png",
    content := List.replicate (10 * 1024 * 1024 + 1) 0 }

/-- A compressor output blob smaller than `jpgFile`. -/
def webpBlob : Blob := { type := "image/webp", content := [1, 2] }

/-- A compressor that always succeeds with `webpBlob`. -/
def shrinker : File → CompressionOptions → Except String Blob :=
  fun _ _ => .ok webpBlob

/-- A 4-byte JPEG candidate. -/
def jpgFile : File :=
  { name := "photo.jpg", type := "image/jpeg", content := [1, 2, 3, 4] }

/-! ## Basic lemmas about the embedding -/

theorem imageCount_append (s t : List Attachment) :
    imageCount (s ++ t) = imageCount s + imageCount t := by
  simp [imageCount, List.filter_append]

theorem totalFileSize_append (s t : List Attachment) :
    totalFileSize (s ++ t) = totalFileSize s + totalFileSize t := by
  simp [totalFileSize, List.filter_append]

theorem imageCount_single (a : Attachment) :
    imageCount [a] = if a.type = AttachmentType.image then 1 else 0 := by
  by_cases h : a.type = AttachmentType.image <;>
    simp [imageCount, List.filter_cons, h]

theorem totalFileSize_single (a : Attachment) :
    totalFileSize [a] =
      if a.type = AttachmentType.file then
        (match a.file with | some f => f.size | none => 0)
      else 0 := by
  by_cases h : a.type = AttachmentType.file <;>
    simp [totalFileSize, List.filter_cons, h]

/-- Case analysis on `addAttachment`: the store is either unchanged
(a rejection) or extended by exactly one record of the submitted kind
carrying only `type`, `file` and `name`; an image can only be appended
when the image count is still below the limit. -/
theorem addAttachment_snd_cases (cfg : Config)
    (sniff : List Nat → Option FileTypeResult)
    (compress : File → CompressionOptions → Except String Blob)
    (type : FileKind) (file : File) (attachments : List Attachment) :
    (addAttachment cfg sniff compress type file attachments).2 = attachments ∨
    ∃ g : File,
      (addAttachment cfg sniff compress type file attachments).2 =
        attachments ++
          [{ type := type.toType, file := some g, name := some file.name }] ∧
      (type = .image → imageCount attachments < MAX_IMAGES) := by
  cases type
  case image =>
    simp only [addAttachment]
    split_ifs with h1 h2 h3 <;>
      first
        | (left; rfl)
        | (right; exact ⟨_, rfl, fun _ => by omega⟩)
  case file =>
    simp only [addAttachment]
    rcases hs : sniff file.content with _ | r <;> simp only [hs]
    · split_ifs with h1 h2 h3 h4
      · left; rfl
      · left; rfl
      · left; rfl
      · left; rfl
      · right
        exact ⟨file, rfl, by intro h; cases h⟩
    · split_ifs with h1
      · left; rfl
      · left; rfl

/-- Commit equation for the file branch: when every gate passes, the
candidate is committed as `{type:'file', file, name}`. -/
theorem addAttachment_file_commit (cfg : Config)
    (sniff : List Nat → Option FileTypeResult)
    (compress : File → CompressionOptions → Except String Blob)
    (file : File) (attachments : List Attachment)
    (hext : isSupportedTextFile (getFileExtension file.name) = true)
    (hsniff : sniff file.content = none)
    (hmime : file.type = "" ∨ isTextMimeType file.type = true)
    (hsize : file.size ≤ MAX_FILE_SIZE_BYTES)
    (htotal : totalFileSize attachments + file.size ≤ MAX_TOTAL_FILE_SIZE_BYTES) :
    addAttachment cfg sniff compress .file file attachments =
      (.committed,
        attachments ++
          [{ type := .file, file := some file, name := some file.name }]) := by
  rcases hmime with h | h <;>
    simp [addAttachment, hext, hsniff, h, Nat.not_lt.mpr hsize,
      Nat.not_lt.mpr htotal]

/-- A committed file candidate passed every gate: allow-listed extension,
no sniffed format, text-like declared MIME (when nonempty), per-item and
aggregate size ceilings. -/
theorem addAttachment_file_gates (cfg : Config)
    (sniff : List Nat → Option FileTypeResult)
    (compress : File → CompressionOptions → Except String Blob)
    (file : File) (attachments : List Attachment)
    (hc : (addAttachment cfg sniff compress .file file attachments).1 =
      .committed) :
    isSupportedTextFile (getFileExtension file.name) = true ∧
    sniff file.content = none ∧
    (file.type ≠ "" → isTextMimeType file.type = true) ∧
    file.size ≤ MAX_FILE_SIZE_BYTES ∧
    totalFileSize attachments + file.size ≤ MAX_TOTAL_FILE_SIZE_BYTES := by
  rcases hs : sniff file.content with _ | r <;>
    simp only [addAttachment, hs] at hc
  · split_ifs at hc with h1 h2 h3 h4
    simp at h1 h2 h3 h4
    exact ⟨h1, rfl, fun hne => h2 hne, by omega, by omega⟩
  · split_ifs at hc

/-- A committed file candidate is appended as exactly
`{type:'file', file, name}` — no other field is set. -/
theorem addAttachment_file_snd_of_committed (cfg : Config)
    (sniff : List Nat → Option FileTypeResult)
    (compress : File → CompressionOptions → Except String Blob)
    (file : File) (attachments : List Attachment)
    (hc : (addAttachment cfg sniff compress .file file attachments).1 =
      .committed) :
    (addAttachment cfg sniff compress .file file attachments).2 =
      attachments ++
        [{ type := .file, file := some file, name := some file.name }] := by
  rcases hs : sniff file.content with _ | r <;>
    simp only [addAttachment, hs] at hc ⊢ <;>
    split_ifs at hc ⊢ <;> simp_all

/-- The youtube modal leaves the store alone or appends one youtube
link. -/
theorem showYoutubeModal_snd_cases (input : Option String)
    (attachments : List Attachment) :
    (showYoutubeModal input attachments).2 = attachments ∨
    ∃ url, (showYoutubeModal input attachments).2 =
      attachments ++ [{ type := .youtube, url := some url }] := by
  rcases input with _ | url
  · left; rfl
  · simp only [showYoutubeModal]
    split_ifs with h1 h2
    · right; exact ⟨url, rfl⟩
    · left; rfl
    · left; rfl

/-- The wikipedia modal leaves the store alone or appends one wikipedia
link. -/
theorem showWikipediaModal_snd_cases (input : Option String)
    (attachments : List Attachment) :
    (showWikipediaModal input attachments).2 = attachments ∨
    ∃ url, (showWikipediaModal input attachments).2 =
      attachments ++ [{ type := .wikipedia, url := some url }] := by
  rcases input with _ | url
  · left; rfl
  · simp only [showWikipediaModal]
    split_ifs with h1 h2
    · right; exact ⟨url, rfl⟩
    · left; rfl
    · left; rfl

/-- `removeAttachment` always produces a sublist of the store. -/
theorem removeAttachment_sublist (index : Int)
    (attachments : List Attachment) :
    (removeAttachment index attachments).Sublist attachments := by
  unfold removeAttachment
  rw [← List.eraseIdx_eq_take_drop_succ]
  exact List.eraseIdx_sublist _ _

theorem imageCount_le_of_sublist {s t : List Attachment}
    (h : s.Sublist t) : imageCount s ≤ imageCount t :=
  (h.filter _).length_le

/-! ## Claim theorems -/

/-- C10: a direct call to `addYoutubeLink(url)` or `addWikipediaLink(url)`
appends a link attachment unconditionally — no domain-fragment validation
happens in these operations, for any `url` whatsoever. -/
theorem claim_C10_direct_link_ops_unvalidated (url : String)
    (attachments : List Attachment) :
    addYoutubeLink url attachments =
      attachments ++ [{ type := .youtube, url := some url }] ∧
    addWikipediaLink url attachments =
      attachments ++ [{ type := .wikipedia, url := some url }] :=
  ⟨rfl, rfl⟩

/-- C7 (amended): removing an in-range position `0 ≤ i < n` deletes
element `i` (order preserved, length `n-1`), and removing a position
`i ≥ n` is a no-op; but a negative `i` is NOT a no-op: `splice` counts it
from the end (`n + i`), clamped to the first element when `i < -n`. -/
theorem claim_C7_remove_by_position (attachments : List Attachment)
    (index : Int) :
    (0 ≤ index → index < (attachments.length : Int) →
      removeAttachment index attachments =
        attachments.eraseIdx index.toNat ∧
      (removeAttachment index attachments).length =
        attachments.length - 1) ∧
    ((attachments.length : Int) ≤ index →
      removeAttachment index attachments = attachments) ∧
    (index < 0 → -(attachments.length : Int) ≤ index →
      removeAttachment index attachments =
        attachments.eraseIdx ((attachments.length : Int) + index).toNat) ∧
    (index < -(attachments.length : Int) →
      removeAttachment index attachments = attachments.eraseIdx 0) := by
  refine ⟨?_, ?_, ?_, ?_⟩
  · intro h0 hlt
    have hi : spliceIndex index attachments.length = index.toNat := by
      unfold spliceIndex
      rw [if_neg (by omega), Nat.min_eq_left (by omega)]
    refine ⟨?_, ?_⟩
    · simp only [removeAttachment]
      rw [hi, ← List.eraseIdx_eq_take_drop_succ]
    · simp only [removeAttachment]
      rw [hi, ← List.eraseIdx_eq_take_drop_succ,
        List.length_eraseIdx_of_lt (by omega)]
  · intro h
    have hi : spliceIndex index attachments.length = attachments.length := by
      unfold spliceIndex
      rw [if_neg (by omega), Nat.min_eq_right (by omega)]
    simp only [removeAttachment]
    rw [hi, List.take_length, List.drop_eq_nil_of_le (by omega),
      List.append_nil]
  · intro hneg hge
    have hi : spliceIndex index attachments.length =
        ((attachments.length : Int) + index).toNat := by
      unfold spliceIndex
      rw [if_pos hneg]
      congr 1
      rw [max_eq_left (by omega)]
    simp only [removeAttachment]
    rw [hi, ← List.eraseIdx_eq_take_drop_succ]
  · intro h
    have hi : spliceIndex index attachments.length = 0 := by
      unfold spliceIndex
      rw [if_pos (by omega), max_eq_right (by omega)]
      rfl
    simp only [removeAttachment]
    rw [hi, ← List.eraseIdx_eq_take_drop_succ]

/-- C7 counterexample: the claim says every out-of-range position
(including negative ones) is a no-op, but `removeAttachment(-1)` on a
one-element store removes its last element. -/
theorem claim_C7_counterexample :
    removeAttachment (-1) [sampleYoutube] = [] ∧
    ([sampleYoutube] : List Attachment) ≠ [] := by decide

/-- C7 witness: in-range removal at position 1 of a 3-element store. -/
theorem claim_C7_witness :
    removeAttachment 1 [sampleYoutube, sampleWikipedia, sampleYoutube] =
      ([sampleYoutube, sampleWikipedia, sampleYoutube] :
        List Attachment).eraseIdx 1 ∧
    (removeAttachment 1
      [sampleYoutube, sampleWikipedia, sampleYoutube]).length =
      ([sampleYoutube, sampleWikipedia, sampleYoutube] :
        List Attachment).length - 1 :=
  (claim_C7_remove_by_position
    [sampleYoutube, sampleWikipedia, sampleYoutube] 1).1
    (by decide) (by decide)

/-- C8 (amended): for a submitted URL, the youtube modal commits iff the
URL contains "youtube.com" or "youtu.be", and the wikipedia modal commits
iff it contains "wikipedia.org"; a commit appends exactly the link, a
non-commit leaves the store unchanged; a nonempty non-matching URL is
rejected as an invalid link, but an empty-string submission is silently
ignored rather than rejected. -/
theorem claim_C8_link_modal_validation (url : String)
    (attachments : List Attachment) :
    ((showYoutubeModal (some url) attachments).1 = .committed ↔
      (includes url "youtube.com" || includes url "youtu.be") = true) ∧
    ((showWikipediaModal (some url) attachments).1 = .committed ↔
      includes url "wikipedia.org" = true) ∧
    ((showYoutubeModal (some url) attachments).1 = .committed →
      (showYoutubeModal (some url) attachments).2 =
        addYoutubeLink url attachments) ∧
    ((showYoutubeModal (some url) attachments).1 ≠ .committed →
      (showYoutubeModal (some url) attachments).2 = attachments) ∧
    ((showWikipediaModal (some url) attachments).1 = .committed →
      (showWikipediaModal (some url) attachments).2 =
        addWikipediaLink url attachments) ∧
    ((showWikipediaModal (some url) attachments).1 ≠ .committed →
      (showWikipediaModal (some url) attachments).2 = attachments) ∧
    (url ≠ "" →
      (includes url "youtube.com" || includes url "youtu.be") = false →
      (showYoutubeModal (some url) attachments).1 = .rejectedInvalid) ∧
    (url ≠ "" → includes url "wikipedia.org" = false →
      (showWikipediaModal (some url) attachments).1 = .rejectedInvalid) := by
  have hyt : includes "" "youtube.com" = false := by decide
  have hyb : includes "" "youtu.be" = false := by decide
  have hwp : includes "" "wikipedia.org" = false := by decide
  by_cases hu : url = ""
  · subst hu
    simp [showYoutubeModal, showWikipediaModal, hyt, hyb, hwp]
  · have hub : (url != "") = true := by simpa using hu
    by_cases hy : (includes url "youtube.com" || includes url "youtu.be") = true <;>
      by_cases hw : includes url "wikipedia.org" = true <;>
        simp [showYoutubeModal, showWikipediaModal, hub, hy, hw, hu,
          addYoutubeLink, addWikipediaLink]

/-- C8 counterexample: the claim says a non-matching submitted URL is
rejected as an invalid link, but an empty-string submission is silently
ignored: no invalid-link rejection is surfaced (and nothing appended). -/
theorem claim_C8_counterexample :
    (showYoutubeModal (some "") []).1 = .ignored ∧
    LinkResult.ignored ≠ LinkResult.rejectedInvalid ∧
    (showYoutubeModal (some "") []).2 = [] := by decide

/-- C8 witness: "https://youtu.be/abc123" commits; "https://vimeo.com/abc123"
is rejected as invalid. -/
theorem claim_C8_witness :
    (showYoutubeModal (some "https://youtu.be/abc123") []).1 =
      .committed ∧
    (showYoutubeModal (some "https://vimeo.com/abc123") []).1 =
      .rejectedInvalid := by
  constructor
  · exact (claim_C8_link_modal_validation "https://youtu.be/abc123" []).1.mpr
      (by decide)
  · exact (claim_C8_link_modal_validation
      "https://vimeo.com/abc123" []).2.2.2.2.2.2.1 (by decide) (by decide)

/-- C3: with 8 images in the store, any further image candidate leaves the
store unchanged, and one passing the format and size gates is rejected
with the count-limit reason; the at-most-8-images predicate is preserved
by every operation of the manager. -/
theorem claim_C3_image_count_invariant (cfg : Config)
    (sniff : List Nat → Option FileTypeResult)
    (compress : File → CompressionOptions → Except String Blob)
    (attachments : List Attachment) :
    (imageCount attachments = 8 →
      ∀ file : File,
        (addAttachment cfg sniff compress .image file attachments).2 =
          attachments ∧
        (SUPPORTED_TYPES.contains file.type = true →
          file.size ≤ MAX_SIZE_BYTES →
          (addAttachment cfg sniff compress .image file attachments).1 =
            .rejected .maxImagesReached)) ∧
    (∀ op : Op, imageCount attachments ≤ 8 →
      imageCount (applyOp cfg sniff compress op attachments) ≤ 8) := by
  constructor
  · intro h8 file
    constructor
    · rcases addAttachment_snd_cases cfg sniff compress .image file
        attachments with h | ⟨g, hsnd, hlt⟩
      · exact h
      · have hx := hlt rfl
        simp [MAX_IMAGES] at hx
        omega
    · intro hfmt hsize
      simp [addAttachment, hfmt, Nat.not_lt.mpr hsize, h8, MAX_IMAGES]
      rw [if_pos (by simpa using hfmt)]
  · intro op hle
    cases op with
    | add t f =>
      rcases addAttachment_snd_cases cfg sniff compress t f attachments
        with h | ⟨g, hsnd, hlt⟩
      · simp only [applyOp]
        rw [h]; exact hle
      · simp only [applyOp]
        rw [hsnd, imageCount_append, imageCount_single]
        cases t with
        | image =>
          have hx := hlt rfl
          simp only [MAX_IMAGES] at hx
          simp [FileKind.toType]
          omega
        | file =>
          simp [FileKind.toType]
          omega
    | addYoutube url =>
      simp only [applyOp, addYoutubeLink]
      rw [imageCount_append, imageCount_single]
      simp
      omega
    | addWikipedia url =>
      simp only [applyOp, addWikipediaLink]
      rw [imageCount_append, imageCount_single]
      simp
      omega
    | youtubeModal input =>
      simp only [applyOp]
      rcases showYoutubeModal_snd_cases input attachments with h | ⟨u, h⟩ <;>
        rw [h]
      · exact hle
      · rw [imageCount_append, imageCount_single]
        simp
        omega
    | wikipediaModal input =>
      simp only [applyOp]
      rcases showWikipediaModal_snd_cases input attachments with h | ⟨u, h⟩ <;>
        rw [h]
      · exact hle
      · rw [imageCount_append, imageCount_single]
        simp
        omega
    | remove index =>
      exact le_trans
        (imageCount_le_of_sublist (removeAttachment_sublist index attachments))
        hle
    | clear =>
      simp [applyOp, clearAttachments, imageCount]

/-- C3 witness: a 9th (valid PNG) image candidate against a store of 8
images is rejected with the count-limit reason, store unchanged. -/
theorem claim_C3_witness :
    (addAttachment cfg0 sniffNone compress0 .image png9 eightImages).2 =
      eightImages ∧
    (addAttachment cfg0 sniffNone compress0 .image png9 eightImages).1 =
      .rejected .maxImagesReached := by
  have h := (claim_C3_image_count_invariant cfg0 sniffNone compress0
    eightImages).1 (by decide) png9
  exact ⟨h.1, h.2 (by decide) (by decide)⟩

/-- C1 (amended): every text-file candidate committed to the Store passed
the extension allow-list, the content sniffer found no concrete format,
and its declared MIME type (when nonempty) is text-like.  UTF-8
decodability of the payload is NOT among the checks (see the
counterexample). -/
theorem claim_C1_text_file_gates (cfg : Config)
    (sniff : List Nat → Option FileTypeResult)
    (compress : File → CompressionOptions → Except String Blob)
    (file : File) (attachments : List Attachment)
    (hc : (addAttachment cfg sniff compress .file file attachments).1 =
      .committed) :
    isSupportedTextFile (getFileExtension file.name) = true ∧
    sniff file.content = none ∧
    (file.type ≠ "" → isTextMimeType file.type = true) := by
  have h := addAttachment_file_gates cfg sniff compress file attachments hc
  exact ⟨h.1, h.2.1, h.2.2.1⟩

/-- C1 counterexample: a `.txt` candidate whose byte `0xFF` is not
decodable as UTF-8 passes every gate (sniffer silent, empty MIME) and is
committed to the Store — binary content can reach the Store. -/
theorem claim_C1_counterexample :
    (addAttachment cfg0 sniffNone compress0 .file binFile []).1 =
      .committed ∧
    (addAttachment cfg0 sniffNone compress0 .file binFile []).2 =
      [{ type := .file, file := some binFile, name := some "notes.txt" }] ∧
    isValidUTF8 binFile.content = false := by
  refine ⟨by decide, by decide, by decide⟩

/-- C1 witness: a committed `.py` candidate indeed passed all gates. -/
theorem claim_C1_witness :
    isSupportedTextFile (getFileExtension pyFile.name) = true ∧
    sniffNone pyFile.content = none ∧
    (pyFile.type ≠ "" → isTextMimeType pyFile.type = true) :=
  claim_C1_text_file_gates cfg0 sniffNone compress0 pyFile [] (by decide)

/-- C2: whenever the sniffer positively identifies a format, the file
candidate is never committed and the store is unchanged — regardless of
extension; when the extension is allow-listed, the surfaced reason is the
binary-content rejection. -/
theorem claim_C2_sniff_rejects (cfg : Config)
    (sniff : List Nat → Option FileTypeResult)
    (compress : File → CompressionOptions → Except String Blob)
    (file : File) (attachments : List Attachment) (r : FileTypeResult)
    (hsniff : sniff file.content = some r) :
    (addAttachment cfg sniff compress .file file attachments).2 =
      attachments ∧
    (addAttachment cfg sniff compress .file file attachments).1 ≠
      .committed ∧
    (isSupportedTextFile (getFileExtension file.name) = true →
      (addAttachment cfg sniff compress .file file attachments).1 =
        .rejected .binaryContentDetected) := by
  refine ⟨?_, ?_, fun hext => ?_⟩
  · by_cases hext : isSupportedTextFile (getFileExtension file.name) = true <;>
      simp [addAttachment, hsniff, hext]
  · by_cases hext : isSupportedTextFile (getFileExtension file.name) = true <;>
      simp [addAttachment, hsniff, hext]
  · simp [addAttachment, hsniff, hext]

/-- C2 witness: a `.txt`-named candidate holding PNG magic bytes is
rejected with the binary-content reason, nothing appended. -/
theorem claim_C2_witness :
    (addAttachment cfg0 pngSniff compress0 .file pngNamedTxt []).2 = [] ∧
    (addAttachment cfg0 pngSniff compress0 .file pngNamedTxt []).1 =
      .rejected .binaryContentDetected := by
  have h := claim_C2_sniff_rejects cfg0 pngSniff compress0 pngNamedTxt []
    { ext := "png", mime := "image/png" } (by decide)
  exact ⟨h.1, h.2.2 (by decide)⟩

/-- C9 (amended): a committed text-file candidate is appended as exactly
`{type:'file', file, name}` — the `sizeBytes` and `extension` fields are
never set on it (they remain `none`), and no operation of the manager
ever produces an attachment with those fields set. -/
theorem claim_C9_committed_record_fields (cfg : Config)
    (sniff : List Nat → Option FileTypeResult)
    (compress : File → CompressionOptions → Except String Blob)
    (file : File) (attachments : List Attachment)
    (hc : (addAttachment cfg sniff compress .file file attachments).1 =
      .committed) :
    (addAttachment cfg sniff compress .file file attachments).2 =
      attachments ++
        [{ type := .file, file := some file, name := some file.name }] ∧
    ∀ op : Op, ∀ s : List Attachment,
      (∀ a ∈ s, a.extension = none ∧ a.sizeBytes = none) →
      ∀ a ∈ applyOp cfg sniff compress op s,
        a.extension = none ∧ a.sizeBytes = none := by
  refine ⟨addAttachment_file_snd_of_committed cfg sniff compress file
    attachments hc, ?_⟩
  intro op s hs a ha
  cases op with
  | add t f =>
    rcases addAttachment_snd_cases cfg sniff compress t f s with
      h | ⟨g, hsnd, _⟩
    · simp only [applyOp] at ha
      rw [h] at ha
      exact hs a ha
    · simp only [applyOp] at ha
      rw [hsnd] at ha
      rcases List.mem_append.mp ha with h1 | h1
      · exact hs a h1
      · simp only [List.mem_singleton] at h1
        subst h1
        exact ⟨rfl, rfl⟩
  | addYoutube url =>
    simp only [applyOp, addYoutubeLink] at ha
    rcases List.mem_append.mp ha with h1 | h1
    · exact hs a h1
    · simp only [List.mem_singleton] at h1
      subst h1
      exact ⟨rfl, rfl⟩
  | addWikipedia url =>
    simp only [applyOp, addWikipediaLink] at ha
    rcases List.mem_append.mp ha with h1 | h1
    · exact hs a h1
    · simp only [List.mem_singleton] at h1
      subst h1
      exact ⟨rfl, rfl⟩
  | youtubeModal input =>
    simp only [applyOp] at ha
    rcases showYoutubeModal_snd_cases input s with h | ⟨u, h⟩ <;>
      rw [h] at ha
    · exact hs a ha
    · rcases List.mem_append.mp ha with h1 | h1
      · exact hs a h1
      · simp only [List.mem_singleton] at h1
        subst h1
        exact ⟨rfl, rfl⟩
  | wikipediaModal input =>
    simp only [applyOp] at ha
    rcases showWikipediaModal_snd_cases input s with h | ⟨u, h⟩ <;>
      rw [h] at ha
    · exact hs a ha
    · rcases List.mem_append.mp ha with h1 | h1
      · exact hs a h1
      · simp only [List.mem_singleton] at h1
        subst h1
        exact ⟨rfl, rfl⟩
  | remove index =>
    simp only [applyOp] at ha
    exact hs a ((removeAttachment_sublist index s).subset ha)
  | clear =>
    simp [applyOp, clearAttachments] at ha

/-- C9 counterexample: an accepted Markdown candidate of 4 bytes with
extension `md` is committed with `sizeBytes = none` and
`extension = none` — not `some 4` / `some "md"` as the claim states. -/
theorem claim_C9_counterexample :
    (addAttachment cfg0 sniffNone compress0 .file mdFile []).1 =
      .committed ∧
    ((addAttachment cfg0 sniffNone compress0 .file mdFile []).2.map
      (fun a => (a.sizeBytes, a.extension))) = [(none, none)] ∧
    mdFile.size = 4 ∧ getFileExtension mdFile.name = "md" := by
  refine ⟨by decide, by decide, by decide, by decide⟩

/-- C9 witness: a committed log-file candidate is appended as exactly
`{type:'file', file, name}`. -/
theorem claim_C9_witness :
    (addAttachment cfg0 sniffNone compress0 .file logFile []).2 =
      [] ++ [{ type := .file, file := some logFile,
               name := some logFile.name }] :=
  (claim_C9_committed_record_fields cfg0 sniffNone compress0 logFile []
    (by decide)).1

/-- Rejection equation for the aggregate-size gate of the file branch. -/
theorem addAttachment_file_total_reject (cfg : Config)
    (sniff : List Nat → Option FileTypeResult)
    (compress : File → CompressionOptions → Except String Blob)
    (file : File) (attachments : List Attachment)
    (hext : isSupportedTextFile (getFileExtension file.name) = true)
    (hsniff : sniff file.content = none)
    (hmime : file.type = "" ∨ isTextMimeType file.type = true)
    (hsize : file.size ≤ MAX_FILE_SIZE_BYTES)
    (htotal : totalFileSize attachments + file.size >
      MAX_TOTAL_FILE_SIZE_BYTES) :
    addAttachment cfg sniff compress .file file attachments =
      (.rejected .totalSizeExceeded, attachments) := by
  rcases hmime with h | h <;>
    simp [addAttachment, hext, hsniff, h, Nat.not_lt.mpr hsize, htotal]

theorem totalFileSize_nil : totalFileSize [] = 0 := rfl

theorem file3MiB_size (n : String) : (file3MiB n).size = 3 * 1024 * 1024 :=
  List.length_replicate (3 * 1024 * 1024) 97

theorem file3MiB_name (n : String) : (file3MiB n).name = n := rfl

theorem file3MiB_mime (n : String) : isTextMimeType (file3MiB n).type = true :=
  rfl

theorem bigPng_size : bigPng.size = 10 * 1024 * 1024 + 1 :=
  List.length_replicate (10 * 1024 * 1024 + 1) 0

theorem totalFileSize_cons (a : Attachment) (l : List Attachment) :
    totalFileSize (a :: l) =
      (if a.type = AttachmentType.file then
        (match a.file with | some f => f.size | none => 0)
      else 0) + totalFileSize l := by
  by_cases h : a.type = AttachmentType.file <;>
    simp [totalFileSize, List.filter_cons, h]

theorem totalFileSize_cons_recFile (n : String) (l : List Attachment) :
    totalFileSize (recFile n :: l) = 3 * 1024 * 1024 + totalFileSize l := by
  rw [totalFileSize_cons]
  norm_num [recFile, file3MiB_size]

/-- Every MIME type of the image allow-list starts with `image/`. -/
theorem supported_type_startsWith {t : String}
    (h : SUPPORTED_TYPES.contains t = true) :
    startsWith t "image/" = true := by
  have hm : t ∈ SUPPORTED_TYPES := by simpa using h
  fin_cases hm <;> decide

/-- C4: when the sum of the byte sizes of the file-kind attachments
already committed plus the candidate's size exceeds 10 MiB, the file
candidate is rejected with the total-size reason and the store is left
unchanged; only file-kind attachments enter the sum; and submitting four
3 MiB text files sequentially from an empty store commits the first three
and rejects the fourth. -/
theorem claim_C4_aggregate_file_ceiling (cfg : Config)
    (sniff : List Nat → Option FileTypeResult)
    (compress : File → CompressionOptions → Except String Blob)
    (file : File) (attachments : List Attachment)
    (hext : isSupportedTextFile (getFileExtension file.name) = true)
    (hsniff : sniff file.content = none)
    (hmime : file.type = "" ∨ isTextMimeType file.type = true)
    (hsize : file.size ≤ MAX_FILE_SIZE_BYTES)
    (htotal : totalFileSize attachments + file.size >
      MAX_TOTAL_FILE_SIZE_BYTES) :
    addAttachment cfg sniff compress .file file attachments =
      (.rejected .totalSizeExceeded, attachments) ∧
    (∀ a : Attachment, a.type ≠ AttachmentType.file →
      totalFileSize (attachments ++ [a]) = totalFileSize attachments) ∧
    addAttachment cfg0 sniffNone compress0 .file (file3MiB "a.txt") [] =
      (.committed, [recFile "a.txt"]) ∧
    addAttachment cfg0 sniffNone compress0 .file (file3MiB "b.txt")
      [recFile "a.txt"] =
      (.committed, [recFile "a.txt", recFile "b.txt"]) ∧
    addAttachment cfg0 sniffNone compress0 .file (file3MiB "c.txt")
      [recFile "a.txt", recFile "b.txt"] =
      (.committed, [recFile "a.txt", recFile "b.txt", recFile "c.txt"]) ∧
    addAttachment cfg0 sniffNone compress0 .file (file3MiB "d.txt")
      [recFile "a.txt", recFile "b.txt", recFile "c.txt"] =
      (.rejected .totalSizeExceeded,
        [recFile "a.txt", recFile "b.txt", recFile "c.txt"]) := by
  have hcommit : ∀ (n : String) (s : List Attachment),
      isSupportedTextFile (getFileExtension n) = true →
      totalFileSize s + 3 * 1024 * 1024 ≤ MAX_TOTAL_FILE_SIZE_BYTES →
      addAttachment cfg0 sniffNone compress0 .file (file3MiB n) s =
        (.committed, s ++ [recFile n]) := by
    intro n s hn htot
    have hx := addAttachment_file_commit cfg0 sniffNone compress0
      (file3MiB n) s (by rw [file3MiB_name]; exact hn) rfl
      (Or.inr (file3MiB_mime n))
      (by rw [file3MiB_size]; norm_num [MAX_FILE_SIZE_BYTES])
      (by rw [file3MiB_size]; exact htot)
    simpa [recFile, file3MiB_name] using hx
  refine ⟨addAttachment_file_total_reject cfg sniff compress file attachments
    hext hsniff hmime hsize htotal, ?_, ?_, ?_, ?_, ?_⟩
  · intro a ha
    rw [totalFileSize_append, totalFileSize_single, if_neg ha]
    omega
  · have h1 := hcommit "a.txt" []
      (by decide)
      (by rw [totalFileSize_nil]
          norm_num [MAX_TOTAL_FILE_SIZE_BYTES])
    simpa only [List.nil_append] using h1
  · have h2 := hcommit "b.txt" [recFile "a.txt"] (by decide)
      (by rw [totalFileSize_cons_recFile, totalFileSize_nil]
          norm_num [MAX_TOTAL_FILE_SIZE_BYTES])
    simpa only [List.cons_append, List.nil_append] using h2
  · have h3 := hcommit "c.txt" [recFile "a.txt", recFile "b.txt"] (by decide)
      (by rw [totalFileSize_cons_recFile, totalFileSize_cons_recFile,
            totalFileSize_nil]
          norm_num [MAX_TOTAL_FILE_SIZE_BYTES])
    simpa only [List.cons_append, List.nil_append] using h3
  · exact addAttachment_file_total_reject cfg0 sniffNone compress0
      (file3MiB "d.txt") [recFile "a.txt", recFile "b.txt", recFile "c.txt"]
      (by rw [file3MiB_name]; decide) rfl (Or.inr (file3MiB_mime _))
      (by rw [file3MiB_size]; norm_num [MAX_FILE_SIZE_BYTES])
      (by rw [totalFileSize_cons_recFile, totalFileSize_cons_recFile,
            totalFileSize_cons_recFile, totalFileSize_nil, file3MiB_size]
          norm_num [MAX_TOTAL_FILE_SIZE_BYTES])

/-- C4 witness: a fourth 3 MiB file against a store already holding three
3 MiB files (9 MiB committed) is rejected with the total-size reason. -/
theorem claim_C4_witness :
    addAttachment cfg0 sniffNone compress0 .file (file3MiB "e.txt")
      [recFile "a.txt", recFile "b.txt", recFile "c.txt"] =
      (.rejected .totalSizeExceeded,
        [recFile "a.txt", recFile "b.txt", recFile "c.txt"]) :=
  (claim_C4_aggregate_file_ceiling cfg0 sniffNone compress0
    (file3MiB "e.txt") [recFile "a.txt", recFile "b.txt", recFile "c.txt"]
    (by rw [file3MiB_name]; decide) rfl (Or.inr (file3MiB_mime _))
    (by rw [file3MiB_size]; norm_num [MAX_FILE_SIZE_BYTES])
    (by rw [totalFileSize_cons_recFile, totalFileSize_cons_recFile,
          totalFileSize_cons_recFile, totalFileSize_nil, file3MiB_size]
        norm_num [MAX_TOTAL_FILE_SIZE_BYTES])).1

/-- C5: a candidate whose original byte size exceeds 10 MiB is rejected
with the per-item size reason — for images (passing the format gate) and
files (passing the classifier gates) alike.  The conclusion holds for
every compressor `compress`, so the rejection never depends on the
Transform Stage: compression cannot unlock an oversized candidate. -/
theorem claim_C5_per_item_ceiling_precompression (cfg : Config)
    (sniff : List Nat → Option FileTypeResult)
    (compress : File → CompressionOptions → Except String Blob)
    (file : File) (attachments : List Attachment) :
    (SUPPORTED_TYPES.contains file.type = true →
      file.size > MAX_SIZE_BYTES →
      addAttachment cfg sniff compress .image file attachments =
        (.rejected .imageTooLarge, attachments)) ∧
    (isSupportedTextFile (getFileExtension file.name) = true →
      sniff file.content = none →
      (file.type = "" ∨ isTextMimeType file.type = true) →
      file.size > MAX_FILE_SIZE_BYTES →
      addAttachment cfg sniff compress .file file attachments =
        (.rejected .fileTooLarge, attachments)) := by
  constructor
  · intro hfmt hsize
    have hmem : file.type ∈ SUPPORTED_TYPES := by simpa using hfmt
    simp [addAttachment, hmem, hsize]
  · intro hext hsniff hmime hsize
    rcases hmime with h | h <;>
      simp [addAttachment, hext, hsniff, h, hsize]

/-- C5 witness: a PNG candidate of 10 MiB + 1 bytes is rejected with the
size reason, for the initial configuration and a throwing compressor. -/
theorem claim_C5_witness :
    addAttachment cfg0 sniffNone compress0 .image bigPng [] =
      (.rejected .imageTooLarge, []) :=
  (claim_C5_per_item_ceiling_precompression cfg0 sniffNone compress0
    bigPng []).1 (by decide)
    (by rw [bigPng_size]; norm_num [MAX_SIZE_BYTES])

/-- C6: for a validated image candidate with compression enabled, the
committed bytes are the compressor's output exactly when that output is
strictly smaller than the original; otherwise — including when the
compressor throws — the original file is committed unchanged, and the
candidate is never rejected by the Transform Stage. -/
theorem claim_C6_compress_smaller_or_original (cfg : Config)
    (sniff : List Nat → Option FileTypeResult)
    (compress : File → CompressionOptions → Except String Blob)
    (file : File) (attachments : List Attachment) (blob : Blob)
    (err : String)
    (hcfg : cfg.compressImages = true)
    (hfmt : SUPPORTED_TYPES.contains file.type = true)
    (hsize : file.size ≤ MAX_SIZE_BYTES)
    (hcount : imageCount attachments < MAX_IMAGES) :
    (compress file cfg.compressionOptions = .ok blob →
      blob.size < file.size →
      addAttachment cfg sniff compress .image file attachments =
        (.committed, attachments ++
          [{ type := .image,
             file := some { name := file.name, type := blob.type,
                            content := blob.content },
             name := some file.name }])) ∧
    (compress file cfg.compressionOptions = .ok blob →
      ¬ blob.size < file.size →
      addAttachment cfg sniff compress .image file attachments =
        (.committed, attachments ++
          [{ type := .image, file := some file,
             name := some file.name }])) ∧
    (compress file cfg.compressionOptions = .error err →
      addAttachment cfg sniff compress .image file attachments =
        (.committed, attachments ++
          [{ type := .image, file := some file,
             name := some file.name }])) := by
  have hmem : file.type ∈ SUPPORTED_TYPES := by simpa using hfmt
  have hsw := supported_type_startsWith hfmt
  have hnc : ¬ imageCount attachments ≥ MAX_IMAGES := by omega
  refine ⟨fun hok hlt => ?_, fun hok hlt => ?_, fun herr => ?_⟩
  · simp [addAttachment, hmem, Nat.not_lt.mpr hsize, hnc, hcfg, hsw, hok,
      hlt]
  · simp [addAttachment, hmem, Nat.not_lt.mpr hsize, hnc, hcfg, hsw, hok,
      hlt]
  · simp [addAttachment, hmem, Nat.not_lt.mpr hsize, hnc, hcfg, hsw, herr]

/-- C6 witness: a 4-byte JPEG with a compressor producing a 2-byte WebP
blob commits the compressed bytes. -/
theorem claim_C6_witness :
    addAttachment cfg0 sniffNone shrinker .image jpgFile [] =
      (.committed, [] ++
        [{ type := .image,
           file := some { name := jpgFile.name, type := webpBlob.type,
                          content := webpBlob.content },
           name := some jpgFile.name }]) :=
  (claim_C6_compress_smaller_or_original cfg0 sniffNone shrinker jpgFile []
    webpBlob "err" rfl (by decide) (by decide) (by decide)).1 rfl (by decide)

end Attachments
